import Mathlib

/-!
Verification of the CHRE SLPI host link (`platform/slpi/host_link.cc`) and the
WWAN request manager (`core/include/chre/core/wwan_request_manager.h`).

The host link is embedded shallowly: the outbound queue is explicit state, the
blocking `pop` is a partial step (`none` = the call suspends), and the side
effects of the RPC entry points (buffer writes, `messageLen` writes, completion
hook invocations, FARF log lines) are recorded in an explicit result record.
-/

namespace Chre

/-- A message bound for the host (`MessageToHost`); the payload bytes of
`message->message` are modelled as a list of bytes. -/
structure MessageToHost where
  payload : List Nat
deriving Repr, DecidableEq

/-- An element of the outbound queue: `some m` is a real message pointer,
`none` is the `nullptr` sentinel pushed during shutdown. -/
abbrev QElem := Option MessageToHost

/-- `kOutboundQueueSize` from host_link.cc. -/
def kOutboundQueueSize : Nat := 32

/-- `INT_MAX` for the 32-bit `int` of the target. -/
def INT_MAX : Int := 2 ^ 31 - 1

/-- Modelled from the spec: `FixedSizeBlockingQueue`
(chre/util/fixed_size_blocking_queue.h) is not part of this excerpt; this is the
fixed-capacity FIFO described in spec §4.1: `push` fails immediately when the
queue holds `kOutboundQueueSize` elements, `pop` removes the head in FIFO order. -/
structure Queue where
  items : List QElem
deriving Repr, DecidableEq

/-- `push(item) -> bool`: enqueue at the tail unless the queue is full. -/
def Queue.push (q : Queue) (e : QElem) : Bool × Queue :=
  if q.items.length < kOutboundQueueSize then (true, ⟨q.items ++ [e]⟩)
  else (false, q)

/-- Blocking `pop()`: `none` means the queue is empty and the calling thread
suspends (the call does not return yet). -/
def Queue.pop? (q : Queue) : Option (QElem × Queue) :=
  match q.items with
  | [] => none
  | x :: xs => some (x, ⟨xs⟩)

/-- `empty()`: non-blocking occupancy snapshot. -/
def Queue.empty (q : Queue) : Bool := q.items.isEmpty

/-- Return statuses of the FastRPC entry points (chre/platform/slpi/fastrpc.h):
`CHRE_FASTRPC_SUCCESS`, `CHRE_FASTRPC_ERROR`, `CHRE_FASTRPC_ERROR_SHUTTING_DOWN`. -/
inductive FastRpcStatus where
  | SUCCESS
  | ERROR
  | SHUTTING_DOWN
deriving Repr, DecidableEq

/-- `memcpy(dst, src, n)`: overwrite the first `n` bytes of `dst` with `src`. -/
def memcpy (dst src : List Nat) (n : Nat) : List Nat :=
  src.take n ++ dst.drop n

/-- Observable outcome of one completed call to `chre_slpi_get_message_to_host`:
the returned status, the queue left behind, the caller's buffer contents, the
`*messageLen` output cell, and the list of messages passed to
`HostCommsManager::onMessageToHostComplete` during the call. -/
structure GetMessageResult where
  result : FastRpcStatus
  queue : Queue
  buffer : List Nat
  messageLen : Option Nat
  completions : List MessageToHost
deriving Repr, DecidableEq

/-- `chre_slpi_get_message_to_host(buffer, bufferLen, messageLen)` from
host_link.cc. Returns `none` when the blocking `pop` suspends on an empty
queue (the call has not returned yet). `buffer` holds the caller's buffer
contents before the call; `messageLen` the output cell before the call. -/
def chre_slpi_get_message_to_host (q : Queue) (buffer : List Nat)
    (bufferLen : Int) (messageLen : Option Nat) : Option GetMessageResult :=
  match q.pop? with
  | none => none
  | some (message, q1) =>
    match message with
    | none =>
      -- A null message is used during shutdown so the calling thread can exit
      some ⟨.SHUTTING_DOWN, q1, buffer, messageLen, []⟩
    | some m =>
      if bufferLen ≤ 0 ∨ (m.payload.length : Int) > INT_MAX
          ∨ (m.payload.length : Int) > bufferLen then
        -- FARF(FATAL, ...): restricted log path, then CHRE_FASTRPC_ERROR;
        -- onMessageToHostComplete(message) still runs after the branch
        some ⟨.ERROR, q1, buffer, messageLen, [m]⟩
      else
        some ⟨.SUCCESS, q1, memcpy buffer m.payload m.payload.length,
          some m.payload.length, [m]⟩

/-- `chre_slpi_deliver_message_from_host(message, messageLen)` from
host_link.cc: a TODO stub that returns `CHRE_FASTRPC_SUCCESS` and touches no
state (the queue state is threaded explicitly to show this). -/
def chre_slpi_deliver_message_from_host (q : Queue) (message : List Nat)
    (messageLen : Int) : FastRpcStatus × Queue :=
  (.SUCCESS, q)

/-- `HostLink::sendMessage(message)` from host_link.cc:
`return gOutboundQueue.push(message);`. -/
def HostLink.sendMessage (q : Queue) (message : MessageToHost) : Bool × Queue :=
  q.push (some message)

/-- `kPollingIntervalUsec` from `HostLinkBase::shutdown`. -/
def kPollingIntervalUsec : Nat := 5000

/-- The FARF log lines emitted by `HostLinkBase::shutdown` (FARF is the
restricted, non-channel-routed log path). -/
inductive LogEvent where
  | shuttingDownHostLink
  | noRoomForShutdownMsg
  | drainingMessageQueue
  | hostTookTooLong
  | finishedDrainingQueue
deriving Repr, DecidableEq

/-- The sentinel push-retry loop of `HostLinkBase::shutdown`:
`while (!gOutboundQueue.push(nullptr) && --retryCount > 0) qurt_timer_sleep(..)`.
Because the host drains the queue concurrently, the outcome of the `i`-th push
attempt is an oracle `push i`. Arguments: `i` = index of the next attempt,
`rc` = current value of `retryCount`. Returns (total attempts made, final
`retryCount`). -/
def pushRetryLoop (push : Nat → Bool) (i : Nat) (rc : Nat) : Nat × Nat :=
  if push i then (i + 1, rc)
  else if h : rc - 1 > 0 then pushRetryLoop push (i + 1) (rc - 1)
  else (i + 1, rc - 1)
termination_by rc
decreasing_by omega

/-- The drain-confirmation loop of `HostLinkBase::shutdown`:
`while (!gOutboundQueue.empty() && --waitCount > 0) qurt_timer_sleep(..)`.
`isEmpty i` is the outcome of the `i`-th `empty()` check. Returns (total
checks made, final `waitCount`). -/
def waitLoop (isEmpty : Nat → Bool) (i : Nat) (wc : Nat) : Nat × Nat :=
  if isEmpty i then (i + 1, wc)
  else if h : wc - 1 > 0 then waitLoop isEmpty (i + 1) (wc - 1)
  else (i + 1, wc - 1)
termination_by wc
decreasing_by omega

/-- Observable trace of one call to `HostLinkBase::shutdown`. -/
structure ShutdownTrace where
  pushAttempts : Nat
  retryCountFinal : Nat
  emptyChecks : Nat
  waitCountFinal : Nat
  logs : List LogEvent
deriving Repr, DecidableEq

/-- `HostLinkBase::shutdown()` from host_link.cc, with the concurrent queue
abstracted by the push and empty oracles. `int retryCount = 5` feeds the push
loop; `if (retryCount <= 0)` selects the abandoned branch, otherwise
`int waitCount = 5` feeds the drain-confirmation loop and `if (waitCount <= 0)`
selects the degraded log line. -/
def HostLinkBase.shutdown (push : Nat → Bool) (isEmpty : Nat → Bool) :
    ShutdownTrace :=
  if (pushRetryLoop push 0 5).2 = 0 then
    ⟨(pushRetryLoop push 0 5).1, (pushRetryLoop push 0 5).2, 0, 5,
      [.shuttingDownHostLink, .noRoomForShutdownMsg]⟩
  else
    ⟨(pushRetryLoop push 0 5).1, (pushRetryLoop push 0 5).2,
      (waitLoop isEmpty 0 5).1, (waitLoop isEmpty 0 5).2,
      [.shuttingDownHostLink, .drainingMessageQueue] ++
        (if (waitLoop isEmpty 0 5).2 = 0 then [.hostTookTooLong]
         else [.finishedDrainingQueue])⟩

/-- Modelled from the spec: the shutdown edge case of `FixedSizeBlockingQueue`
(not part of this excerpt). Spec §4.1: "popping after shutdown keeps returning
the sentinel to any further caller (so repeated polls do not hang)". The flag
records that the shutdown sentinel has been enqueued. -/
structure ShutdownQueue where
  items : List QElem
  shuttingDown : Bool
deriving Repr, DecidableEq

/-- Modelled from the spec: pushing the sentinel during shutdown; on success the
queue enters the shutting-down regime. -/
def ShutdownQueue.pushSentinel (q : ShutdownQueue) : Bool × ShutdownQueue :=
  if q.items.length < kOutboundQueueSize then (true, ⟨q.items ++ [none], true⟩)
  else (false, q)

/-- Modelled from the spec: `pop` after shutdown. Queued items come out in FIFO
order; once empty, a shutting-down queue keeps handing the sentinel to any
further caller instead of blocking. -/
def ShutdownQueue.pop? (q : ShutdownQueue) : Option (QElem × ShutdownQueue) :=
  match q.items with
  | x :: xs => some (x, ⟨xs, q.shuttingDown⟩)
  | [] => if q.shuttingDown then some (none, q) else none

/-- The element returned by the `n`-th subsequent `pop` (0-based), with `none`
meaning that pop blocked. -/
def ShutdownQueue.popN (q : ShutdownQueue) : Nat → Option (QElem × ShutdownQueue)
  | 0 => q.pop?
  | n + 1 =>
    match q.pop? with
    | some (_, q1) => q1.popN n
    | none => none

/-- Modelled from the spec: the body of `WwanRequestManager::requestCellInfo` is
not part of this excerpt (only its declaration and the slot fields in
wwan_request_manager.h). Behaviour from spec §4.3: reject while the slot is
occupied; otherwise occupy the slot, issue the platform request, and release the
slot again if the driver rejects. -/
structure WwanRequestManager where
  mCellInfoRequestingNanoappInstanceId : Option Nat
  mCellInfoRequestingNanoappCookie : Nat
deriving Repr, DecidableEq

/-- Modelled from the spec (§4.3 `requestResource`): `driverAccepts` is the
platform driver's synchronous answer used when the slot is free. -/
def WwanRequestManager.requestCellInfo (st : WwanRequestManager)
    (driverAccepts : Bool) (instanceId : Nat) (cookie : Nat) :
    Bool × WwanRequestManager :=
  if st.mCellInfoRequestingNanoappInstanceId.isSome then
    (false, st)
  else
    let occupied : WwanRequestManager := ⟨some instanceId, cookie⟩
    if driverAccepts then (true, occupied)
    else (false, { occupied with mCellInfoRequestingNanoappInstanceId := none })

/-! ## Theorems -/

/-- Reduction of the drain entry point on a queue whose head is a real
message: what remains is exactly the buffer-validation branch of the source. -/
theorem getMessage_cons_some (rest : List QElem) (m : MessageToHost)
    (buffer : List Nat) (bufferLen : Int) (messageLen : Option Nat) :
    chre_slpi_get_message_to_host ⟨some m :: rest⟩ buffer bufferLen
        messageLen =
      (if bufferLen ≤ 0 ∨ (m.payload.length : Int) > INT_MAX
          ∨ (m.payload.length : Int) > bufferLen then
        some ⟨.ERROR, ⟨rest⟩, buffer, messageLen, [m]⟩
      else
        some ⟨.SUCCESS, ⟨rest⟩, memcpy buffer m.payload m.payload.length,
          some m.payload.length, [m]⟩) := rfl

/-- Reduction of the drain entry point on a queue whose head is the sentinel. -/
theorem getMessage_cons_none (rest : List QElem)
    (buffer : List Nat) (bufferLen : Int) (messageLen : Option Nat) :
    chre_slpi_get_message_to_host ⟨none :: rest⟩ buffer bufferLen messageLen =
      some ⟨.SHUTTING_DOWN, ⟨rest⟩, buffer, messageLen, []⟩ := rfl

/-- C2: popping the sentinel makes `chre_slpi_get_message_to_host` return the
shutting-down status, copy no bytes, leave `*messageLen` unwritten, and invoke
no completion hook. -/
theorem getMessage_sentinel_shuttingDown (rest : List QElem)
    (buffer : List Nat) (bufferLen : Int) (messageLen : Option Nat) :
    chre_slpi_get_message_to_host ⟨none :: rest⟩ buffer bufferLen messageLen =
      some ⟨.SHUTTING_DOWN, ⟨rest⟩, buffer, messageLen, []⟩ := rfl

/-- C9: `chre_slpi_deliver_message_from_host` returns `CHRE_FASTRPC_SUCCESS`
for every input and changes no state. -/
theorem deliverMessage_always_success (q : Queue) (message : List Nat)
    (messageLen : Int) :
    chre_slpi_deliver_message_from_host q message messageLen =
      (FastRpcStatus.SUCCESS, q) := rfl

/-- C8: `HostLink::sendMessage` returns exactly the boolean result of
`push`, which is `true` iff the queue was below capacity, and its only state
effect is the enqueue itself (queue extended on success, untouched on
failure). -/
theorem sendMessage_forwards_push (q : Queue) (m : MessageToHost) :
    HostLink.sendMessage q m = q.push (some m) ∧
    ((HostLink.sendMessage q m).1 = true ↔
      q.items.length < kOutboundQueueSize) ∧
    (HostLink.sendMessage q m).2.items =
      (if q.items.length < kOutboundQueueSize then q.items ++ [some m]
       else q.items) := by
  refine ⟨rfl, ?_, ?_⟩ <;>
    · unfold HostLink.sendMessage Queue.push
      split <;> simp_all

/-- C1: for every non-sentinel message the blocking drain entry point dequeues,
the completion hook `onMessageToHostComplete` fires exactly once on that
message, whether validation succeeds (SUCCESS) or fails (ERROR). -/
theorem getMessage_nonsentinel_completes_once (rest : List QElem)
    (m : MessageToHost) (buffer : List Nat) (bufferLen : Int)
    (messageLen : Option Nat) :
    (chre_slpi_get_message_to_host ⟨some m :: rest⟩ buffer bufferLen
        messageLen).map GetMessageResult.completions = some [m] ∧
    ((chre_slpi_get_message_to_host ⟨some m :: rest⟩ buffer bufferLen
        messageLen).map GetMessageResult.result = some FastRpcStatus.SUCCESS ∨
     (chre_slpi_get_message_to_host ⟨some m :: rest⟩ buffer bufferLen
        messageLen).map GetMessageResult.result = some FastRpcStatus.ERROR) := by
  rw [getMessage_cons_some]
  split
  · exact ⟨rfl, Or.inr rfl⟩
  · exact ⟨rfl, Or.inl rfl⟩

/-- C3: when the dequeued message's payload does not fit the host buffer (or
its size exceeds INT_MAX), the entry point returns ERROR, copies no bytes,
writes no `*messageLen`, and still invokes the completion hook exactly once. -/
theorem getMessage_bufferTooSmall_error (rest : List QElem)
    (m : MessageToHost) (buffer : List Nat) (bufferLen : Int)
    (messageLen : Option Nat)
    (hbig : (m.payload.length : Int) > bufferLen ∨
      (m.payload.length : Int) > INT_MAX) :
    chre_slpi_get_message_to_host ⟨some m :: rest⟩ buffer bufferLen
        messageLen =
      some ⟨.ERROR, ⟨rest⟩, buffer, messageLen, [m]⟩ := by
  rw [getMessage_cons_some]
  rw [if_pos (by tauto)]

/-- Witness for C3: a 3-byte message against a 2-byte buffer. -/
theorem getMessage_bufferTooSmall_error_witness :
    chre_slpi_get_message_to_host ⟨[some ⟨[1, 2, 3]⟩]⟩ [0, 0] 2 none =
      some ⟨.ERROR, ⟨[]⟩, [0, 0], none, [⟨[1, 2, 3]⟩]⟩ :=
  getMessage_bufferTooSmall_error [] ⟨[1, 2, 3]⟩ [0, 0] 2 none
    (Or.inl (by norm_num))

/-- C10: the status returned by `chre_slpi_get_message_to_host` is always one
of SUCCESS, ERROR, SHUTTING_DOWN, and the caller's buffer and the `messageLen`
output cell are written only on the SUCCESS path: on ERROR and SHUTTING_DOWN
both are left exactly as they were. -/
theorem getMessage_frame_conditions (q : Queue) (buffer : List Nat)
    (bufferLen : Int) (messageLen : Option Nat) (r : GetMessageResult)
    (hr : chre_slpi_get_message_to_host q buffer bufferLen messageLen =
      some r) :
    (r.result = FastRpcStatus.SUCCESS ∨ r.result = FastRpcStatus.ERROR ∨
      r.result = FastRpcStatus.SHUTTING_DOWN) ∧
    (r.result ≠ FastRpcStatus.SUCCESS →
      r.buffer = buffer ∧ r.messageLen = messageLen) := by
  obtain ⟨items⟩ := q
  match items with
  | [] => exact absurd hr (by simp [chre_slpi_get_message_to_host, Queue.pop?])
  | none :: rest =>
    rw [getMessage_cons_none] at hr
    obtain rfl := Option.some.inj hr
    exact ⟨Or.inr (Or.inr rfl), fun _ => ⟨rfl, rfl⟩⟩
  | some m :: rest =>
    rw [getMessage_cons_some] at hr
    split at hr
    · obtain rfl := Option.some.inj hr
      exact ⟨Or.inr (Or.inl rfl), fun _ => ⟨rfl, rfl⟩⟩
    · obtain rfl := Option.some.inj hr
      exact ⟨Or.inl rfl, fun h => absurd rfl h⟩

/-- Witness for C10 at the sentinel outcome. -/
theorem getMessage_frame_conditions_witness :
    ((⟨.SHUTTING_DOWN, ⟨[]⟩, [0], none, []⟩ : GetMessageResult).result =
        FastRpcStatus.SUCCESS ∨
      (⟨.SHUTTING_DOWN, ⟨[]⟩, [0], none, []⟩ : GetMessageResult).result =
        FastRpcStatus.ERROR ∨
      (⟨.SHUTTING_DOWN, ⟨[]⟩, [0], none, []⟩ : GetMessageResult).result =
        FastRpcStatus.SHUTTING_DOWN) ∧
    ((⟨.SHUTTING_DOWN, ⟨[]⟩, [0], none, []⟩ : GetMessageResult).result ≠
        FastRpcStatus.SUCCESS →
      (⟨.SHUTTING_DOWN, ⟨[]⟩, [0], none, []⟩ : GetMessageResult).buffer = [0] ∧
      (⟨.SHUTTING_DOWN, ⟨[]⟩, [0], none, []⟩ : GetMessageResult).messageLen =
        none) :=
  getMessage_frame_conditions ⟨[none]⟩ [0] 1 none
    ⟨.SHUTTING_DOWN, ⟨[]⟩, [0], none, []⟩ rfl

/-- The push-retry loop makes at most `rc` further attempts. -/
theorem pushRetryLoop_attempts_le (push : Nat → Bool) :
    ∀ rc, 0 < rc → ∀ i, (pushRetryLoop push i rc).1 ≤ i + rc := by
  intro rc
  induction rc with
  | zero => intro h; omega
  | succ n ih =>
    intro _ i
    unfold pushRetryLoop
    simp only [Nat.add_sub_cancel]
    split
    · show i + 1 ≤ i + (n + 1)
      omega
    · split
      next h =>
        have := ih h (i + 1)
        omega
      next h =>
        show i + 1 ≤ i + (n + 1)
        omega

/-- The push-retry loop ends with `retryCount = 0` exactly when every attempt
within the budget failed. -/
theorem pushRetryLoop_exhausted_iff (push : Nat → Bool) :
    ∀ rc, 0 < rc → ∀ i, ((pushRetryLoop push i rc).2 = 0 ↔
      ∀ j, i ≤ j → j < i + rc → push j = false) := by
  intro rc
  induction rc with
  | zero => intro h; omega
  | succ n ih =>
    intro _ i
    unfold pushRetryLoop
    simp only [Nat.add_sub_cancel]
    split
    next hp =>
      show n + 1 = 0 ↔ _
      constructor
      · intro h; omega
      · intro h
        have hfalse := h i (le_refl i) (by omega)
        rw [hp] at hfalse
        cases hfalse
    next hp =>
      have hp2 : push i = false := by
        cases hpi : push i
        · rfl
        · exact absurd hpi hp
      split
      next hn =>
        have hiff := ih hn (i + 1)
        constructor
        · intro h2 j hj1 hj2
          rcases Nat.eq_or_lt_of_le hj1 with rfl | hlt
          · exact hp2
          · exact (hiff.mp h2) j (by omega) (by omega)
        · intro h2
          exact hiff.mpr (fun j hj1 hj2 => h2 j (by omega) (by omega))
      next hn =>
        show n = 0 ↔ _
        constructor
        · intro _ j hj1 hj2
          have hji : j = i := by omega
          subst hji
          exact hp2
        · intro _
          omega

/-- The drain-wait loop makes at most `wc` further `empty()` checks. -/
theorem waitLoop_checks_le (isEmpty : Nat → Bool) :
    ∀ wc, 0 < wc → ∀ i, (waitLoop isEmpty i wc).1 ≤ i + wc := by
  intro wc
  induction wc with
  | zero => intro h; omega
  | succ n ih =>
    intro _ i
    unfold waitLoop
    simp only [Nat.add_sub_cancel]
    split
    · show i + 1 ≤ i + (n + 1)
      omega
    · split
      next h =>
        have := ih h (i + 1)
        omega
      next h =>
        show i + 1 ≤ i + (n + 1)
        omega

/-- The drain-wait loop makes at least one `empty()` check. -/
theorem waitLoop_checks_pos (isEmpty : Nat → Bool) :
    ∀ wc i, i + 1 ≤ (waitLoop isEmpty i wc).1 := by
  intro wc
  induction wc with
  | zero =>
    intro i
    unfold waitLoop
    split
    · show i + 1 ≤ i + 1
      omega
    · split
      next h => exact absurd h (by omega)
      next h =>
        show i + 1 ≤ i + 1
        omega
  | succ n ih =>
    intro i
    unfold waitLoop
    simp only [Nat.add_sub_cancel]
    split
    · show i + 1 ≤ i + 1
      omega
    · split
      next h =>
        have := ih (i + 1)
        omega
      next h =>
        show i + 1 ≤ i + 1
        omega

/-- The drain-wait loop ends either because the last `empty()` check saw the
queue empty, or because `waitCount` hit zero. -/
theorem waitLoop_exit (isEmpty : Nat → Bool) :
    ∀ wc, 0 < wc → ∀ i,
      isEmpty ((waitLoop isEmpty i wc).1 - 1) = true ∨
        (waitLoop isEmpty i wc).2 = 0 := by
  intro wc
  induction wc with
  | zero => intro h; omega
  | succ n ih =>
    intro _ i
    unfold waitLoop
    simp only [Nat.add_sub_cancel]
    split
    next hp =>
      left
      show isEmpty (i + 1 - 1) = true
      simpa using hp
    next hp =>
      split
      next hn => exact ih hn (i + 1)
      next hn =>
        right
        show n = 0
        omega

/-- C5: the shutdown sentinel push is retried at most 5 times in total
(`retryCount` starts at 5); the budget is exhausted exactly when every attempt
failed, and in that case the error goes out on the restricted FARF log path and
the drain-confirmation polling of `empty()` is never entered. -/
theorem shutdown_sentinel_push_bounded (push isEmpty : Nat → Bool) :
    (HostLinkBase.shutdown push isEmpty).pushAttempts ≤ 5 ∧
    ((HostLinkBase.shutdown push isEmpty).retryCountFinal = 0 ↔
      ∀ j, j < 5 → push j = false) ∧
    ((HostLinkBase.shutdown push isEmpty).retryCountFinal = 0 →
      (HostLinkBase.shutdown push isEmpty).emptyChecks = 0 ∧
      (HostLinkBase.shutdown push isEmpty).logs =
        [LogEvent.shuttingDownHostLink, LogEvent.noRoomForShutdownMsg]) := by
  have h1 := pushRetryLoop_attempts_le push 5 (by omega) 0
  have h2 := pushRetryLoop_exhausted_iff push 5 (by omega) 0
  have h2a : (pushRetryLoop push 0 5).2 = 0 ↔ ∀ j, j < 5 → push j = false := by
    rw [h2]
    constructor
    · intro h j hj
      exact h j (Nat.zero_le j) (by omega)
    · intro h j hj1 hj2
      exact h j (by omega)
  unfold HostLinkBase.shutdown
  split
  next hp =>
    refine ⟨?_, ?_, ?_⟩
    · show (pushRetryLoop push 0 5).1 ≤ 5
      omega
    · exact h2a
    · exact fun _ => ⟨rfl, rfl⟩
  next hp =>
    refine ⟨?_, ?_, ?_⟩
    · show (pushRetryLoop push 0 5).1 ≤ 5
      omega
    · exact h2a
    · exact fun h => absurd h hp

/-- C6: `shutdown()` always terminates (it is a total function of the oracle
outcomes); after a successful sentinel push it polls `empty()` at least once
and at most 5 times (`waitCount` starts at 5), and it stops polling either
because the last check observed the queue empty or because the wait budget was
exhausted (degraded case), whichever comes first. -/
theorem shutdown_drain_wait_bounded (push isEmpty : Nat → Bool) :
    (HostLinkBase.shutdown push isEmpty).emptyChecks ≤ 5 ∧
    ((HostLinkBase.shutdown push isEmpty).retryCountFinal ≠ 0 →
      1 ≤ (HostLinkBase.shutdown push isEmpty).emptyChecks ∧
      (isEmpty ((HostLinkBase.shutdown push isEmpty).emptyChecks - 1) = true ∨
        (HostLinkBase.shutdown push isEmpty).waitCountFinal = 0)) := by
  have h1 := waitLoop_checks_le isEmpty 5 (by omega) 0
  have h2 := waitLoop_checks_pos isEmpty 5 0
  have h3 := waitLoop_exit isEmpty 5 (by omega) 0
  unfold HostLinkBase.shutdown
  split
  next hp =>
    refine ⟨?_, fun h => absurd hp h⟩
    show (0 : Nat) ≤ 5
    omega
  next hp =>
    refine ⟨?_, fun _ => ⟨?_, h3⟩⟩
    · show (waitLoop isEmpty 0 5).1 ≤ 5
      omega
    · show 1 ≤ (waitLoop isEmpty 0 5).1
      omega

/-- Helper: a drained shutting-down queue hands the sentinel to every poll. -/
theorem shutdownQueue_drained_popN (n : Nat) :
    ShutdownQueue.popN ⟨[], true⟩ n = some (none, ⟨[], true⟩) := by
  induction n with
  | zero => rfl
  | succ k ih => exact ih

/-- C4: once the sentinel has been successfully enqueued on an otherwise-idle
queue, every subsequent pop returns the sentinel: repeated polls never block
(the result is always `some`) and never yield a stale real message. -/
theorem sentinel_pop_idempotent_after_shutdown (n : Nat) :
    (ShutdownQueue.pushSentinel ⟨[], false⟩).1 = true ∧
    ShutdownQueue.popN (ShutdownQueue.pushSentinel ⟨[], false⟩).2 n =
      some (none, ⟨[], true⟩) := by
  refine ⟨rfl, ?_⟩
  cases n with
  | zero => rfl
  | succ k => exact shutdownQueue_drained_popN k

/-- C7: `requestCellInfo` called while the pending-request slot is occupied
returns false and leaves the whole manager state, in particular the stored
(instance id, cookie) pair, unchanged. -/
theorem requestCellInfo_rejected_when_occupied (st : WwanRequestManager)
    (driverAccepts : Bool) (instanceId cookie : Nat)
    (hocc : st.mCellInfoRequestingNanoappInstanceId.isSome = true) :
    st.requestCellInfo driverAccepts instanceId cookie = (false, st) := by
  unfold WwanRequestManager.requestCellInfo
  simp [hocc]

/-- Witness for C7: a manager occupied by nanoapp 1 with cookie 7 rejects a
request from nanoapp 2 with cookie 9 and keeps (1, 7). -/
theorem requestCellInfo_rejected_when_occupied_witness :
    WwanRequestManager.requestCellInfo ⟨some 1, 7⟩ true 2 9 =
      (false, ⟨some 1, 7⟩) :=
  requestCellInfo_rejected_when_occupied ⟨some 1, 7⟩ true 2 9 rfl

end Chre
